import Mathlib

/-!
Shallow embedding of the real-time call-signaling and presence layer of the
nelly-api server (the socket.io block of the process entrypoint).

The three process-wide JS `Map`s (`onlineUsers`, `activeCalls`, `callTimeouts`)
are modelled as association lists with JS `Map` semantics (`set` replaces the
value of an existing key in place, `get` returns the first binding, `delete`
removes the binding).  Timestamps are milliseconds as `Nat`; durations are `Int`
(the JS code computes `Math.floor((new Date() - acceptedAt) / 1000)`, which is
floor division, hence `Int.fdiv`).  Each socket event handler becomes a pure
function from the server state (plus the handler's inputs and the current time)
to the new state, the list of call-history records written (`Message.create`
calls with `type: 'call'`), and the list of events emitted.  The possibility
that an awaited `Message.create` throws is modelled by two `Bool` flags, one
per create call inside the handler's try/catch.
-/

namespace NellyCall

/-- JS `Map.prototype.get` on an association list (first binding wins;
bindings are unique when the list is built with `mapSet`/`mapDelete`). -/
def mapGet {α : Type} (m : List (String × α)) (k : String) : Option α :=
  match m with
  | [] => none
  | (k', v) :: rest => if k = k' then some v else mapGet rest k

/-- JS `Map.prototype.set`: replaces the value in place if the key is
present, otherwise appends a new binding. -/
def mapSet {α : Type} (m : List (String × α)) (k : String) (v : α) :
    List (String × α) :=
  match m with
  | [] => [(k, v)]
  | (k', v') :: rest =>
    if k = k' then (k, v) :: rest else (k', v') :: mapSet rest k v

/-- JS `Map.prototype.delete`: removes the binding for the key, if any. -/
def mapDelete {α : Type} (m : List (String × α)) (k : String) :
    List (String × α) :=
  match m with
  | [] => []
  | (k', v') :: rest =>
    if k = k' then rest else (k', v') :: mapDelete rest k

/-- The `callTimeouts` map holds one pending timer handle per callId; the
handle itself is opaque, so the map is modelled as the list of callIds with an
armed timer.  `Map.set` on it. -/
def timeoutArm (l : List String) (k : String) : List String :=
  if l.contains k then l else l ++ [k]

/-- The `const timeout = callTimeouts.get(callId); if (timeout)
{ clearTimeout(timeout); callTimeouts.delete(callId); }` pattern. -/
def timeoutClear (l : List String) (k : String) : List String :=
  if l.contains k then l.erase k else l

/-- A call session as stored in `activeCalls` (fields of the object literal in
the `audio:call:initiate` handler; `acceptedAt` is added by the accept
handler). -/
structure CallSession where
  id : String
  caller : String
  receiver : String
  callerSocketId : String
  receiverSocketId : String
  status : String
  startedAt : Nat
  acceptedAt : Option Nat := none
  callerInfo : String
deriving Repr, DecidableEq

/-- One `Message.create` call with `type: 'call'`: the call-history record.
`callStatus` is `callData.status` (`"missed"` or `"completed"`),
`callType` is always `"audio"`, `msgStatus` the outer `status: 'delivered'`. -/
structure CallRecord where
  sender : String
  receiver : String
  duration : Int
  callType : String
  callStatus : String
  timestamp : Nat
  msgStatus : String
deriving Repr, DecidableEq

/-- Builds the record written by one `Message.create({...type:'call'...})`. -/
def mkCallRecord (sender receiver : String) (duration : Int)
    (callStatus : String) (now : Nat) : CallRecord :=
  { sender := sender, receiver := receiver, duration := duration,
    callType := "audio", callStatus := callStatus, timestamp := now,
    msgStatus := "delivered" }

/-- The two mirrored `Message.create` calls inside one try/catch block.
`fail1`/`fail2` say whether the first/second awaited create throws; a throw is
caught by the surrounding catch, so a failing first create also skips the
second. -/
def historyPair (caller receiver : String) (duration : Int)
    (callStatus : String) (now : Nat) (fail1 fail2 : Bool) :
    List CallRecord :=
  if fail1 then []
  else if fail2 then [mkCallRecord caller receiver duration callStatus now]
  else [mkCallRecord caller receiver duration callStatus now,
        mkCallRecord receiver caller duration callStatus now]

/-- Every event the signaling layer emits, tagged with its destination
socket (or broadcast). -/
inductive Emit where
  | userStatus (userId : String) (isOnline : Bool)
  | callError (socketId : String) (message : String)
  | callInitiated (socketId : String) (callId : String) (receiverId : String)
  | callIncoming (socketId : String) (callId : String) (callerInfo : String)
  | callAccepted (socketId : String) (callId : String) (acceptedAt : Nat)
  | callDeclined (socketId : String) (callId : String) (reason : String)
  | callMissed (socketId : String) (callId : String) (reason : String)
      (callType : String)
  | callEnded (socketId : String) (callId : String) (duration : Int)
      (wasAccepted : Bool) (endedBy : Option String)
  | callEndedByDisconnect (socketId : String) (callId : String)
      (duration : Int) (wasAccepted : Bool) (reason : String)
deriving Repr, DecidableEq

/-- The three process-wide maps. -/
structure ServerState where
  onlineUsers : List (String × String)
  activeCalls : List (String × CallSession)
  callTimeouts : List String
deriving Repr, DecidableEq

/-- A connected socket: its transport id and the `socket.userId` field set by
the `user:online` handler (absent before any `user:online` on this socket). -/
structure Socket where
  id : String
  userId : Option String := none
deriving Repr, DecidableEq

/-- Result of running one handler turn: the new state, the call-history
records written, and the events emitted (in program order). -/
structure HandlerResult where
  state : ServerState
  records : List CallRecord
  emits : List Emit
deriving Repr, DecidableEq

/-- The `user:online` handler: `if (!userId) return;` then
`socket.userId = userId; onlineUsers.set(userId, socket.id);` and a broadcast
`user:status {userId, isOnline: true}`. -/
def userOnline (st : ServerState) (sock : Socket) (userId : String) :
    ServerState × Socket × List Emit :=
  if userId = "" then (st, sock, [])
  else
    ({ st with onlineUsers := mapSet st.onlineUsers userId sock.id },
     { sock with userId := some userId },
     [Emit.userStatus userId true])

/-- `Math.floor((new Date() - call.acceptedAt) / 1000)` when `acceptedAt` is
present (JS `Date` subtraction yields milliseconds), else `0`. -/
def elapsedSeconds (acceptedAt : Option Nat) (now : Nat) : Int :=
  match acceptedAt with
  | some a => ((now : Int) - (a : Int)).fdiv 1000
  | none => 0

/-- `const wasAccepted = call.status === 'active' && call.acceptedAt;`
(a present `Date` is truthy). -/
def wasAcceptedOf (call : CallSession) : Bool :=
  call.status == "active" && call.acceptedAt.isSome

/-- The `audio:call:initiate` handler body. `now` is `Date.now()`, also used
for the session's `startedAt = new Date()`.  Arms the 30s missed-call timeout
(`callTimeouts.set`). -/
def handleInitiate (st : ServerState) (sock : Socket)
    (receiverId callerId callerInfo : String) (now : Nat) : HandlerResult :=
  let callId := "call_" ++ callerId ++ "_" ++ receiverId ++ "_" ++ toString now
  match mapGet st.onlineUsers receiverId with
  | none =>
    { state := st, records := [],
      emits := [Emit.callError sock.id "User is offline"] }
  | some receiverSocketId =>
    let session : CallSession :=
      { id := callId, caller := callerId, receiver := receiverId,
        callerSocketId := sock.id, receiverSocketId := receiverSocketId,
        status := "ringing", startedAt := now, acceptedAt := none,
        callerInfo := callerInfo }
    { state :=
        { st with activeCalls := mapSet st.activeCalls callId session,
                  callTimeouts := timeoutArm st.callTimeouts callId },
      records := [],
      emits := [Emit.callInitiated sock.id callId receiverId,
                Emit.callIncoming receiverSocketId callId callerInfo] }

/-- The body of the 30-second `missedCallTimeout` callback armed by
initiate: on fire it re-reads the session; only if it is still `'ringing'`
does it write the two missed-call records, notify both parties, and delete the
session and the timeout entry. -/
def missedCallTimeoutFire (st : ServerState) (callId : String) (now : Nat)
    (fail1 fail2 : Bool) : HandlerResult :=
  match mapGet st.activeCalls callId with
  | none => { state := st, records := [], emits := [] }
  | some call =>
    if call.status = "ringing" then
      { state :=
          { st with activeCalls := mapDelete st.activeCalls callId,
                    callTimeouts := st.callTimeouts.erase callId },
        records := historyPair call.caller call.receiver 0 "missed" now
          fail1 fail2,
        emits := [Emit.callMissed call.callerSocketId callId "No answer"
                    "outgoing",
                  Emit.callMissed call.receiverSocketId callId "Missed call"
                    "incoming"] }
    else { state := st, records := [], emits := [] }

/-- The `audio:call:accept` handler body. -/
def handleAccept (st : ServerState) (callId : String) (now : Nat) :
    HandlerResult :=
  match mapGet st.activeCalls callId with
  | none => { state := st, records := [], emits := [] }
  | some call =>
    let call1 := { call with status := "active", acceptedAt := some now }
    { state :=
        { st with callTimeouts := timeoutClear st.callTimeouts callId,
                  activeCalls := mapSet st.activeCalls callId call1 },
      records := [],
      emits := [Emit.callAccepted call.callerSocketId callId now,
                Emit.callAccepted call.receiverSocketId callId now] }

/-- `reason || 'Call declined'` (JS: an empty string is falsy, so it also
falls back to the default). -/
def declineReason (reason : Option String) : String :=
  match reason with
  | some r => if r = "" then "Call declined" else r
  | none => "Call declined"

/-- The `audio:call:decline` handler body: clear the timeout, notify the
caller only, delete the session.  No `Message.create` occurs on this path. -/
def handleDecline (st : ServerState) (callId : String)
    (reason : Option String) : HandlerResult :=
  match mapGet st.activeCalls callId with
  | none => { state := st, records := [], emits := [] }
  | some call =>
    { state :=
        { st with callTimeouts := timeoutClear st.callTimeouts callId,
                  activeCalls := mapDelete st.activeCalls callId },
      records := [],
      emits := [Emit.callDeclined call.callerSocketId callId
                  (declineReason reason)] }

/-- `duration !== undefined ? duration : (call.acceptedAt ? floor((now -
acceptedAt)/1000) : 0)`. -/
def finalDurationOf (duration : Option Int) (call : CallSession)
    (now : Nat) : Int :=
  match duration with
  | some d => d
  | none => elapsedSeconds call.acceptedAt now

/-- The server state as seen by other event-loop turns while the
`audio:call:end` handler is suspended at its first awaited `Message.create`:
the statements before the first `await` only read the session and clear the
timeout entry; `activeCalls.delete(callId)` runs only after both awaits. -/
def handleEndAtAwait (st : ServerState) (callId : String) : ServerState :=
  match mapGet st.activeCalls callId with
  | none => st
  | some _ => { st with callTimeouts := timeoutClear st.callTimeouts callId }

/-- `const callStatus = wasAccepted && finalDuration > 0 ? 'completed' :
'missed';`. -/
def resolvedStatusOf (call : CallSession) (duration : Option Int)
    (now : Nat) : String :=
  if wasAcceptedOf call && decide (finalDurationOf duration call now > 0)
  then "completed" else "missed"

/-- The `audio:call:end` handler body, run to completion as one turn.
`sock` is the socket the event arrived on (its `userId` becomes `endedBy`);
`duration` is the optional client-supplied duration. -/
def handleEnd (st : ServerState) (sock : Socket) (callId : String)
    (duration : Option Int) (now : Nat) (fail1 fail2 : Bool) :
    HandlerResult :=
  match mapGet st.activeCalls callId with
  | none => { state := st, records := [], emits := [] }
  | some call =>
    { state :=
        { st with callTimeouts := timeoutClear st.callTimeouts callId,
                  activeCalls := mapDelete st.activeCalls callId },
      records := historyPair call.caller call.receiver
        (finalDurationOf duration call now) (resolvedStatusOf call duration now)
        now fail1 fail2,
      emits := [Emit.callEnded call.callerSocketId callId
                  (finalDurationOf duration call now) (wasAcceptedOf call)
                  sock.userId,
                Emit.callEnded call.receiverSocketId callId
                  (finalDurationOf duration call now) (wasAcceptedOf call)
                  sock.userId] }

/-- The `activeCalls.forEach` loop of the disconnect handler: for every
session one of whose recorded socket ids is the disconnecting socket, clear
the timeout, compute duration and acceptance, notify the other party with
`reason: 'User disconnected'`, and delete the session. -/
def disconnectCalls (socketId : String) (now : Nat) :
    List (String × CallSession) → ServerState → ServerState × List Emit
  | [], st => (st, [])
  | (callId, call) :: rest, st =>
    if call.callerSocketId = socketId ∨ call.receiverSocketId = socketId then
      let st1 := { st with callTimeouts := timeoutClear st.callTimeouts callId }
      let d := elapsedSeconds call.acceptedAt now
      let wa := wasAcceptedOf call
      let target :=
        if call.callerSocketId = socketId then call.receiverSocketId
        else call.callerSocketId
      let st2 := { st1 with activeCalls := mapDelete st1.activeCalls callId }
      let (st3, es) := disconnectCalls socketId now rest st2
      (st3, Emit.callEndedByDisconnect target callId d wa "User disconnected"
              :: es)
    else
      disconnectCalls socketId now rest st

/-- The `disconnect` handler body: `if (socket.userId)` — delete the presence
entry and broadcast offline (with no check that this socket is still the one
on record) — then tear down every session this socket participates in. -/
def handleDisconnect (st : ServerState) (sock : Socket) (now : Nat) :
    ServerState × List Emit :=
  let (st1, presenceEmits) :=
    match sock.userId with
    | some uid =>
      if uid = "" then (st, ([] : List Emit))
      else
        ({ st with onlineUsers := mapDelete st.onlineUsers uid },
         [Emit.userStatus uid false])
    | none => (st, [])
  let (st2, callEmits) := disconnectCalls sock.id now st1.activeCalls st1
  (st2, presenceEmits ++ callEmits)

end NellyCall

namespace NellyCall

/-! Lemmas about the `Map` model, shared by the handler theorems. -/

theorem mapGet_mapSet_self {α : Type} (m : List (String × α)) (k : String)
    (v : α) : mapGet (mapSet m k v) k = some v := by
  induction m with
  | nil => simp [mapSet, mapGet]
  | cons hd tl ih =>
    obtain ⟨k', v'⟩ := hd
    by_cases hk : k = k' <;> simp [mapSet, mapGet, hk, ih]

theorem mapGet_eq_none_of_not_mem_keys {α : Type} (m : List (String × α))
    (k : String) (h : k ∉ m.map Prod.fst) : mapGet m k = none := by
  induction m with
  | nil => rfl
  | cons hd tl ih =>
    obtain ⟨k', v'⟩ := hd
    simp only [List.map_cons, List.mem_cons, not_or] at h
    simp only [mapGet, if_neg h.1]
    exact ih h.2

theorem mapGet_mapDelete_self {α : Type} (m : List (String × α)) (k : String)
    (hkeys : (m.map Prod.fst).Nodup) : mapGet (mapDelete m k) k = none := by
  induction m with
  | nil => rfl
  | cons hd tl ih =>
    obtain ⟨k', v'⟩ := hd
    simp only [List.map_cons, List.nodup_cons] at hkeys
    by_cases hk : k = k'
    · subst hk
      simp only [mapDelete, if_pos rfl]
      exact mapGet_eq_none_of_not_mem_keys tl k hkeys.1
    · simp only [mapDelete, if_neg hk, mapGet, if_neg hk]
      exact ih hkeys.2

theorem contains_eq_false_of_not_mem (l : List String) (k : String)
    (h : k ∉ l) : l.contains k = false := by
  simpa using h

theorem erase_contains_eq_false (l : List String) (k : String)
    (hnd : l.Nodup) : (l.erase k).contains k = false :=
  contains_eq_false_of_not_mem _ _ (hnd.not_mem_erase)

theorem timeoutClear_contains_eq_false (l : List String) (k : String)
    (hnd : l.Nodup) : (timeoutClear l k).contains k = false := by
  unfold timeoutClear
  by_cases hc : l.contains k
  · rw [if_pos hc]; exact erase_contains_eq_false l k hnd
  · rw [if_neg hc]; exact Bool.eq_false_iff.mpr hc

/-- Claim C1 counter-scenario: user `u` registers socket `s1`, then registers
socket `s2` (superseding `s1`, so `onlineUsers` maps `u` to `s2`); then the
stale socket `s1` disconnects.  The code deletes `u`'s presence entry — now
pointing at `s2` — and broadcasts an offline `user:status`, because the
disconnect handler never compares `onlineUsers.get(socket.userId)` with
`socket.id`.  The spec requires the entry `(u, s2)` to survive and no offline
broadcast. -/
theorem c1_stale_disconnect_clears_newer_presence :
    let st0 : ServerState :=
      { onlineUsers := [], activeCalls := [], callTimeouts := [] }
    let r1 := userOnline st0 { id := "s1" } "u"
    let r2 := userOnline r1.1 { id := "s2" } "u"
    let rd := handleDisconnect r2.1 r1.2.1 0
    mapGet r2.1.onlineUsers "u" = some "s2" ∧
    mapGet rd.1.onlineUsers "u" = none ∧
    rd.2 = [Emit.userStatus "u" false] := by
  decide

/-- An accepted (active) session between `u1` and `u2`, used as concrete
input by several scenarios. -/
def activeSession : CallSession :=
  { id := "call_u1_u2_100", caller := "u1", receiver := "u2",
    callerSocketId := "s1", receiverSocketId := "s2", status := "active",
    startedAt := 100, acceptedAt := some 5100, callerInfo := "info" }

/-- Server state holding `activeSession` with both users online and no armed
timeout (it was disarmed on accept). -/
def activeState : ServerState :=
  { onlineUsers := [("u1", "s1"), ("u2", "s2")],
    activeCalls := [("call_u1_u2_100", activeSession)],
    callTimeouts := [] }

/-- A still-ringing session between `u1` and `u2`. -/
def ringingSession : CallSession :=
  { id := "call_u1_u2_100", caller := "u1", receiver := "u2",
    callerSocketId := "s1", receiverSocketId := "s2", status := "ringing",
    startedAt := 100, acceptedAt := none, callerInfo := "info" }

/-- Server state holding `ringingSession` with its 30-second timeout armed. -/
def ringingState : ServerState :=
  { onlineUsers := [("u1", "s1"), ("u2", "s2")],
    activeCalls := [("call_u1_u2_100", ringingSession)],
    callTimeouts := ["call_u1_u2_100"] }

/-- Claim C2 counter-scenario: in the `audio:call:end` handler the statements
before the first awaited `Message.create` do not remove the session
(`activeCalls.delete(callId)` runs only after both awaits), so at the await
point the session is still on record; a re-entrant `audio:call:end` for the
same callId arriving during the await therefore does not take the no-op path
and writes a second pair of history records (four in total for one call). -/
theorem c2_session_still_present_during_await :
    let stAwait : ServerState := handleEndAtAwait activeState "call_u1_u2_100"
    mapGet stAwait.activeCalls "call_u1_u2_100" = some activeSession ∧
    (handleEnd stAwait { id := "s2", userId := some "u2" } "call_u1_u2_100"
        (some 5) 5200 false false).records.length = 2 := by
  decide

/-- Claim C3 counter-scenario: two `audio:call:initiate` events with the same
caller, receiver and `Date.now()` generate the same callId; the second
`activeCalls.set` silently overwrites the first session (here visible in the
stored `callerSocketId` changing from `sA` to `sB`) instead of rejecting the
duplicate — the second handler run emits the normal initiated/incoming pair
and no error event, so the first session is not kept authoritative. -/
theorem c3_duplicate_create_overwrites_first_session :
    let st0 : ServerState :=
      { onlineUsers := [("u2", "s2")], activeCalls := [], callTimeouts := [] }
    let r1 := handleInitiate st0 { id := "sA", userId := some "u1" } "u2" "u1"
      "info" 100
    let r2 := handleInitiate r1.state { id := "sB", userId := some "u1" }
      "u2" "u1" "info" 100
    (mapGet r1.state.activeCalls "call_u1_u2_100").map
        (fun s => s.callerSocketId) = some "sA" ∧
    (mapGet r2.state.activeCalls "call_u1_u2_100").map
        (fun s => s.callerSocketId) = some "sB" ∧
    r2.emits = [Emit.callInitiated "sB" "call_u1_u2_100" "u2",
                Emit.callIncoming "s2" "call_u1_u2_100" "info"] := by
  decide

/-- The spec's duration rule, stated from its words: prefer the
client-supplied value; else floor((now − acceptedAt)/1000) when the call had
been accepted (`acceptedAt` present, per the spec's data model), else 0. -/
def specFinalDuration (client : Option Int) (acceptedAt : Option Nat)
    (now : Nat) : Int :=
  match client with
  | some d => d
  | none =>
    match acceptedAt with
    | some a => ((now : Int) - (a : Int)).fdiv 1000
    | none => 0

/-- The spec's resolved-status rule: `completed` exactly when the call had
been accepted and the final duration is greater than 0, else `missed`. -/
def specResolvedStatus (accepted : Bool) (d : Int) : String :=
  if accepted && decide (d > 0) then "completed" else "missed"

/-- Claim C4: on an explicit end with a live session, the final duration is
the client-supplied one if supplied, else floor((now − acceptedAt)/1000) when
accepted, else 0; the status is `completed` exactly when accepted with
positive duration, else `missed`; two mirrored history records with that
status and duration are written; an ended event carrying
{callId, duration, wasAccepted, endedBy} goes to both recorded connections;
and the session is removed.  `hwf` is the reachable-state invariant that
`acceptedAt` is present exactly on `'active'` sessions. -/
theorem c4_explicit_end_behavior (st : ServerState) (sock : Socket)
    (callId : String) (duration : Option Int) (now : Nat) (call : CallSession)
    (h : mapGet st.activeCalls callId = some call)
    (hkeys : (st.activeCalls.map Prod.fst).Nodup)
    (hwf : call.acceptedAt.isSome = (call.status == "active")) :
    (handleEnd st sock callId duration now false false).records =
      [mkCallRecord call.caller call.receiver
         (specFinalDuration duration call.acceptedAt now)
         (specResolvedStatus call.acceptedAt.isSome
            (specFinalDuration duration call.acceptedAt now)) now,
       mkCallRecord call.receiver call.caller
         (specFinalDuration duration call.acceptedAt now)
         (specResolvedStatus call.acceptedAt.isSome
            (specFinalDuration duration call.acceptedAt now)) now] ∧
    (handleEnd st sock callId duration now false false).emits =
      [Emit.callEnded call.callerSocketId callId
         (specFinalDuration duration call.acceptedAt now)
         call.acceptedAt.isSome sock.userId,
       Emit.callEnded call.receiverSocketId callId
         (specFinalDuration duration call.acceptedAt now)
         call.acceptedAt.isSome sock.userId] ∧
    mapGet (handleEnd st sock callId duration now
      false false).state.activeCalls callId = none := by
  have hwa : wasAcceptedOf call = call.acceptedAt.isSome := by
    unfold wasAcceptedOf
    rw [← hwf, Bool.and_self]
  have hd : finalDurationOf duration call now =
      specFinalDuration duration call.acceptedAt now := by
    cases duration <;> rfl
  have hs : resolvedStatusOf call duration now =
      specResolvedStatus call.acceptedAt.isSome
        (specFinalDuration duration call.acceptedAt now) := by
    unfold resolvedStatusOf specResolvedStatus
    rw [hwa, hd]
  simp only [handleEnd, h, historyPair, hwa, hd, hs]
  refine ⟨by simp, by simp, ?_⟩
  exact mapGet_mapDelete_self _ _ hkeys

/-- Witness for C4 at a concrete accepted call ended with a client-supplied
duration of 42 seconds. -/
theorem c4_explicit_end_behavior_witness :
    (mapGet activeState.activeCalls "call_u1_u2_100" = some activeSession ∧
     (activeState.activeCalls.map Prod.fst).Nodup ∧
     activeSession.acceptedAt.isSome = (activeSession.status == "active")) ∧
    ((handleEnd activeState { id := "s1", userId := some "u1" }
        "call_u1_u2_100" (some 42) 5200 false false).records =
      [mkCallRecord activeSession.caller activeSession.receiver
         (specFinalDuration (some 42) activeSession.acceptedAt 5200)
         (specResolvedStatus activeSession.acceptedAt.isSome
            (specFinalDuration (some 42) activeSession.acceptedAt 5200)) 5200,
       mkCallRecord activeSession.receiver activeSession.caller
         (specFinalDuration (some 42) activeSession.acceptedAt 5200)
         (specResolvedStatus activeSession.acceptedAt.isSome
            (specFinalDuration (some 42) activeSession.acceptedAt 5200)) 5200] ∧
     (handleEnd activeState { id := "s1", userId := some "u1" }
        "call_u1_u2_100" (some 42) 5200 false false).emits =
      [Emit.callEnded activeSession.callerSocketId "call_u1_u2_100"
         (specFinalDuration (some 42) activeSession.acceptedAt 5200)
         activeSession.acceptedAt.isSome
         (Socket.userId { id := "s1", userId := some "u1" }),
       Emit.callEnded activeSession.receiverSocketId "call_u1_u2_100"
         (specFinalDuration (some 42) activeSession.acceptedAt 5200)
         activeSession.acceptedAt.isSome
         (Socket.userId { id := "s1", userId := some "u1" })] ∧
     mapGet (handleEnd activeState { id := "s1", userId := some "u1" }
        "call_u1_u2_100" (some 42) 5200 false false).state.activeCalls
        "call_u1_u2_100" = none) :=
  ⟨⟨by decide, by decide, by decide⟩,
   c4_explicit_end_behavior activeState { id := "s1", userId := some "u1" }
     "call_u1_u2_100" (some 42) 5200 activeSession (by decide) (by decide)
     (by decide)⟩

/-- Claim C5: when the 30-second timeout fires on a still-ringing session,
exactly the two mirrored missed records (duration 0) are written, the caller
gets a missed event with reason `No answer` / callType `outgoing`, the
receiver one with `Missed call` / `incoming`, and the session and timeout
entries are removed. -/
theorem c5_timeout_fire_behavior (st : ServerState) (callId : String)
    (now : Nat) (call : CallSession)
    (h : mapGet st.activeCalls callId = some call)
    (hring : call.status = "ringing")
    (hkeys : (st.activeCalls.map Prod.fst).Nodup)
    (hto : st.callTimeouts.Nodup) :
    (missedCallTimeoutFire st callId now false false).records =
      [mkCallRecord call.caller call.receiver 0 "missed" now,
       mkCallRecord call.receiver call.caller 0 "missed" now] ∧
    (missedCallTimeoutFire st callId now false false).emits =
      [Emit.callMissed call.callerSocketId callId "No answer" "outgoing",
       Emit.callMissed call.receiverSocketId callId "Missed call"
         "incoming"] ∧
    mapGet (missedCallTimeoutFire st callId now
      false false).state.activeCalls callId = none ∧
    (missedCallTimeoutFire st callId now
      false false).state.callTimeouts.contains callId = false := by
  simp only [missedCallTimeoutFire, h, hring, if_true, historyPair]
  refine ⟨by simp, by simp, ?_, ?_⟩
  · exact mapGet_mapDelete_self _ _ hkeys
  · exact erase_contains_eq_false _ _ hto

/-- Witness for C5 at the concrete ringing call timing out. -/
theorem c5_timeout_fire_behavior_witness :
    (mapGet ringingState.activeCalls "call_u1_u2_100" = some ringingSession ∧
     ringingSession.status = "ringing" ∧
     (ringingState.activeCalls.map Prod.fst).Nodup ∧
     ringingState.callTimeouts.Nodup) ∧
    ((missedCallTimeoutFire ringingState "call_u1_u2_100" 30100
        false false).records =
      [mkCallRecord ringingSession.caller ringingSession.receiver 0 "missed"
         30100,
       mkCallRecord ringingSession.receiver ringingSession.caller 0 "missed"
         30100] ∧
     (missedCallTimeoutFire ringingState "call_u1_u2_100" 30100
        false false).emits =
      [Emit.callMissed ringingSession.callerSocketId "call_u1_u2_100"
         "No answer" "outgoing",
       Emit.callMissed ringingSession.receiverSocketId "call_u1_u2_100"
         "Missed call" "incoming"] ∧
     mapGet (missedCallTimeoutFire ringingState "call_u1_u2_100" 30100
        false false).state.activeCalls "call_u1_u2_100" = none ∧
     (missedCallTimeoutFire ringingState "call_u1_u2_100" 30100
        false false).state.callTimeouts.contains "call_u1_u2_100" = false) :=
  ⟨⟨by decide, by decide, by decide, by decide⟩,
   c5_timeout_fire_behavior ringingState "call_u1_u2_100" 30100
     ringingSession (by decide) (by decide) (by decide) (by decide)⟩

/-- Claim C6: for a live session, processing an accept (or a decline) before
the 30-second timeout has fired disarms it — afterwards its callId no longer
has an armed timer — and even a run of the (already fired-in-flight) timeout
callback on the resulting state is a complete no-op: no state change, no
missed-call record, no missed event, because after accept the session is no
longer `'ringing'` and after decline it is absent. -/
theorem c6_resolved_call_timeout_never_fires (st : ServerState)
    (callId : String) (now : Nat) (call : CallSession)
    (reason : Option String)
    (h : mapGet st.activeCalls callId = some call)
    (hkeys : (st.activeCalls.map Prod.fst).Nodup)
    (hto : st.callTimeouts.Nodup) :
    ((handleAccept st callId now).state.callTimeouts.contains callId
        = false ∧
     ∀ t f1 f2, missedCallTimeoutFire (handleAccept st callId now).state
         callId t f1 f2 =
       ⟨(handleAccept st callId now).state, [], []⟩) ∧
    ((handleDecline st callId reason).state.callTimeouts.contains callId
        = false ∧
     ∀ t f1 f2, missedCallTimeoutFire (handleDecline st callId reason).state
         callId t f1 f2 =
       ⟨(handleDecline st callId reason).state, [], []⟩) := by
  constructor
  · constructor
    · simp only [handleAccept, h]
      exact timeoutClear_contains_eq_false _ _ hto
    · intro t f1 f2
      simp only [handleAccept, h]
      simp [missedCallTimeoutFire, mapGet_mapSet_self]
  · constructor
    · simp only [handleDecline, h]
      exact timeoutClear_contains_eq_false _ _ hto
    · intro t f1 f2
      have hnone : mapGet (handleDecline st callId reason).state.activeCalls
          callId = none := by
        simp only [handleDecline, h]
        exact mapGet_mapDelete_self _ _ hkeys
      simp [missedCallTimeoutFire, hnone]

/-- Witness for C6 at the concrete ringing call with its timeout armed. -/
theorem c6_resolved_call_timeout_never_fires_witness :
    (mapGet ringingState.activeCalls "call_u1_u2_100" = some ringingSession ∧
     (ringingState.activeCalls.map Prod.fst).Nodup ∧
     ringingState.callTimeouts.Nodup) ∧
    (((handleAccept ringingState "call_u1_u2_100"
          5100).state.callTimeouts.contains "call_u1_u2_100" = false ∧
      ∀ t f1 f2, missedCallTimeoutFire
          (handleAccept ringingState "call_u1_u2_100" 5100).state
          "call_u1_u2_100" t f1 f2 =
        ⟨(handleAccept ringingState "call_u1_u2_100" 5100).state, [], []⟩) ∧
     ((handleDecline ringingState "call_u1_u2_100"
          none).state.callTimeouts.contains "call_u1_u2_100" = false ∧
      ∀ t f1 f2, missedCallTimeoutFire
          (handleDecline ringingState "call_u1_u2_100" none).state
          "call_u1_u2_100" t f1 f2 =
        ⟨(handleDecline ringingState "call_u1_u2_100" none).state, [],
          []⟩)) :=
  ⟨⟨by decide, by decide, by decide⟩,
   c6_resolved_call_timeout_never_fires ringingState "call_u1_u2_100" 5100
     ringingSession none (by decide) (by decide) (by decide)⟩

/-- Claim C7: a throw of an awaited history write is absorbed by the
handler's try/catch: the resulting state and emitted events of the end
handler — and, for a ringing session, of the timeout callback — are the same
for every combination of write failures as on the success path, the lifecycle
events still reach both recorded connections, and the session is removed. -/
theorem c7_history_failure_does_not_block (st : ServerState) (sock : Socket)
    (callId : String) (duration : Option Int) (now : Nat)
    (call : CallSession)
    (h : mapGet st.activeCalls callId = some call)
    (hkeys : (st.activeCalls.map Prod.fst).Nodup) :
    (∀ f1 f2,
       (handleEnd st sock callId duration now f1 f2).state =
         (handleEnd st sock callId duration now false false).state ∧
       (handleEnd st sock callId duration now f1 f2).emits =
         (handleEnd st sock callId duration now false false).emits) ∧
    (handleEnd st sock callId duration now false false).emits =
      [Emit.callEnded call.callerSocketId callId
         (finalDurationOf duration call now) (wasAcceptedOf call)
         sock.userId,
       Emit.callEnded call.receiverSocketId callId
         (finalDurationOf duration call now) (wasAcceptedOf call)
         sock.userId] ∧
    mapGet (handleEnd st sock callId duration now
      false false).state.activeCalls callId = none ∧
    (call.status = "ringing" →
      (∀ f1 f2,
         (missedCallTimeoutFire st callId now f1 f2).state =
           (missedCallTimeoutFire st callId now false false).state ∧
         (missedCallTimeoutFire st callId now f1 f2).emits =
           (missedCallTimeoutFire st callId now false false).emits) ∧
      (missedCallTimeoutFire st callId now false false).emits =
        [Emit.callMissed call.callerSocketId callId "No answer" "outgoing",
         Emit.callMissed call.receiverSocketId callId "Missed call"
           "incoming"] ∧
      mapGet (missedCallTimeoutFire st callId now
        false false).state.activeCalls callId = none) := by
  refine ⟨?_, ?_, ?_, ?_⟩
  · intro f1 f2
    simp only [handleEnd, h]
    simp
  · simp only [handleEnd, h]
  · simp only [handleEnd, h]
    exact mapGet_mapDelete_self _ _ hkeys
  · intro hring
    refine ⟨?_, ?_, ?_⟩
    · intro f1 f2
      simp only [missedCallTimeoutFire, h, hring, if_true]
      simp
    · simp only [missedCallTimeoutFire, h, hring, if_true]
    · simp only [missedCallTimeoutFire, h, hring, if_true]
      exact mapGet_mapDelete_self _ _ hkeys

/-- Witness for C7 at the concrete ringing call, exercising both the end
handler and the timeout callback with failing writes. -/
theorem c7_history_failure_does_not_block_witness :
    (mapGet ringingState.activeCalls "call_u1_u2_100" = some ringingSession ∧
     (ringingState.activeCalls.map Prod.fst).Nodup) ∧
    ((∀ f1 f2,
        (handleEnd ringingState { id := "s1", userId := some "u1" }
            "call_u1_u2_100" none 9000 f1 f2).state =
          (handleEnd ringingState { id := "s1", userId := some "u1" }
            "call_u1_u2_100" none 9000 false false).state ∧
        (handleEnd ringingState { id := "s1", userId := some "u1" }
            "call_u1_u2_100" none 9000 f1 f2).emits =
          (handleEnd ringingState { id := "s1", userId := some "u1" }
            "call_u1_u2_100" none 9000 false false).emits) ∧
     (handleEnd ringingState { id := "s1", userId := some "u1" }
        "call_u1_u2_100" none 9000 false false).emits =
      [Emit.callEnded ringingSession.callerSocketId "call_u1_u2_100"
         (finalDurationOf none ringingSession 9000)
         (wasAcceptedOf ringingSession)
         (Socket.userId { id := "s1", userId := some "u1" }),
       Emit.callEnded ringingSession.receiverSocketId "call_u1_u2_100"
         (finalDurationOf none ringingSession 9000)
         (wasAcceptedOf ringingSession)
         (Socket.userId { id := "s1", userId := some "u1" })] ∧
     mapGet (handleEnd ringingState { id := "s1", userId := some "u1" }
        "call_u1_u2_100" none 9000 false false).state.activeCalls
        "call_u1_u2_100" = none ∧
     (ringingSession.status = "ringing" →
       (∀ f1 f2,
          (missedCallTimeoutFire ringingState "call_u1_u2_100" 9000
              f1 f2).state =
            (missedCallTimeoutFire ringingState "call_u1_u2_100" 9000
              false false).state ∧
          (missedCallTimeoutFire ringingState "call_u1_u2_100" 9000
              f1 f2).emits =
            (missedCallTimeoutFire ringingState "call_u1_u2_100" 9000
              false false).emits) ∧
       (missedCallTimeoutFire ringingState "call_u1_u2_100" 9000
          false false).emits =
         [Emit.callMissed ringingSession.callerSocketId "call_u1_u2_100"
            "No answer" "outgoing",
          Emit.callMissed ringingSession.receiverSocketId "call_u1_u2_100"
            "Missed call" "incoming"] ∧
       mapGet (missedCallTimeoutFire ringingState "call_u1_u2_100" 9000
          false false).state.activeCalls "call_u1_u2_100" = none)) :=
  ⟨⟨by decide, by decide⟩,
   c7_history_failure_does_not_block ringingState
     { id := "s1", userId := some "u1" } "call_u1_u2_100" none 9000
     ringingSession (by decide) (by decide)⟩

/-- Claim C8: declining a live call clears its timeout, emits exactly one
declined event — to the caller's recorded connection, with the supplied
reason or the `Call declined` default — writes no record, removes the
session; and an immediately following second decline for the same callId is a
total no-op (same state, no records, no events). -/
theorem c8_decline_idempotent (st : ServerState) (callId : String)
    (reason reason2 : Option String) (call : CallSession)
    (h : mapGet st.activeCalls callId = some call)
    (hkeys : (st.activeCalls.map Prod.fst).Nodup)
    (hto : st.callTimeouts.Nodup)
    (hr : reason ≠ some "") :
    (handleDecline st callId reason).state.callTimeouts.contains callId
        = false ∧
    (handleDecline st callId reason).emits =
      [Emit.callDeclined call.callerSocketId callId
        (reason.getD "Call declined")] ∧
    (handleDecline st callId reason).records = [] ∧
    mapGet (handleDecline st callId reason).state.activeCalls callId
        = none ∧
    handleDecline (handleDecline st callId reason).state callId reason2 =
      ⟨(handleDecline st callId reason).state, [], []⟩ := by
  have hreason : declineReason reason = reason.getD "Call declined" := by
    unfold declineReason
    cases reason with
    | none => rfl
    | some r =>
      have : r ≠ "" := fun he => hr (by rw [he])
      simp [this]
  have hnone : mapGet (handleDecline st callId reason).state.activeCalls
      callId = none := by
    simp only [handleDecline, h]
    exact mapGet_mapDelete_self _ _ hkeys
  refine ⟨?_, ?_, ?_, hnone, ?_⟩
  · simp only [handleDecline, h]
    exact timeoutClear_contains_eq_false _ _ hto
  · simp only [handleDecline, h, hreason]
  · simp only [handleDecline, h]
  · set S2 := (handleDecline st callId reason).state
    simp only [handleDecline, hnone]

/-- Witness for C8: decline then a second decline on the concrete ringing
call. -/
theorem c8_decline_idempotent_witness :
    (mapGet ringingState.activeCalls "call_u1_u2_100" = some ringingSession ∧
     (ringingState.activeCalls.map Prod.fst).Nodup ∧
     ringingState.callTimeouts.Nodup ∧
     (some "Busy" : Option String) ≠ some "") ∧
    ((handleDecline ringingState "call_u1_u2_100"
        (some "Busy")).state.callTimeouts.contains "call_u1_u2_100"
        = false ∧
     (handleDecline ringingState "call_u1_u2_100" (some "Busy")).emits =
      [Emit.callDeclined ringingSession.callerSocketId "call_u1_u2_100"
        ((some "Busy").getD "Call declined")] ∧
     (handleDecline ringingState "call_u1_u2_100" (some "Busy")).records
        = [] ∧
     mapGet (handleDecline ringingState "call_u1_u2_100"
        (some "Busy")).state.activeCalls "call_u1_u2_100" = none ∧
     handleDecline (handleDecline ringingState "call_u1_u2_100"
        (some "Busy")).state "call_u1_u2_100" (some "Busy") =
      ⟨(handleDecline ringingState "call_u1_u2_100" (some "Busy")).state,
        [], []⟩) :=
  ⟨⟨by decide, by decide, by decide, by decide⟩,
   c8_decline_idempotent ringingState "call_u1_u2_100" (some "Busy")
     (some "Busy") ringingSession (by decide) (by decide) (by decide)
     (by decide)⟩

/-- Claim C9: the end handler looks the call up only by callId and never
compares the requesting socket with the session's recorded participants — for
ANY socket whose registered user is `u` (no hypothesis ties `sock` or `u` to
the session), an end event tears the session down, writes the two mirrored
records, and emits ended to both recorded participant connections with
`endedBy = u`. -/
theorem c9_end_has_no_participant_check (st : ServerState) (sock : Socket)
    (callId : String) (duration : Option Int) (now : Nat)
    (call : CallSession) (u : String)
    (h : mapGet st.activeCalls callId = some call)
    (hkeys : (st.activeCalls.map Prod.fst).Nodup)
    (hu : sock.userId = some u) :
    mapGet (handleEnd st sock callId duration now
      false false).state.activeCalls callId = none ∧
    (handleEnd st sock callId duration now false false).records =
      [mkCallRecord call.caller call.receiver
         (finalDurationOf duration call now)
         (resolvedStatusOf call duration now) now,
       mkCallRecord call.receiver call.caller
         (finalDurationOf duration call now)
         (resolvedStatusOf call duration now) now] ∧
    (handleEnd st sock callId duration now false false).emits =
      [Emit.callEnded call.callerSocketId callId
         (finalDurationOf duration call now) (wasAcceptedOf call) (some u),
       Emit.callEnded call.receiverSocketId callId
         (finalDurationOf duration call now) (wasAcceptedOf call)
         (some u)] := by
  refine ⟨?_, ?_, ?_⟩
  · simp only [handleEnd, h]
    exact mapGet_mapDelete_self _ _ hkeys
  · simp only [handleEnd, h, historyPair]
    simp
  · simp only [handleEnd, h, hu]

/-- Witness for C9: a third-party socket `s9`, registered to user `u9` who is
neither participant, ends the concrete active call between `u1` and `u2`. -/
theorem c9_end_has_no_participant_check_witness :
    (mapGet activeState.activeCalls "call_u1_u2_100" = some activeSession ∧
     (activeState.activeCalls.map Prod.fst).Nodup ∧
     Socket.userId { id := "s9", userId := some "u9" } = some "u9") ∧
    (mapGet (handleEnd activeState { id := "s9", userId := some "u9" }
        "call_u1_u2_100" (some 7) 5200 false false).state.activeCalls
        "call_u1_u2_100" = none ∧
     (handleEnd activeState { id := "s9", userId := some "u9" }
        "call_u1_u2_100" (some 7) 5200 false false).records =
      [mkCallRecord activeSession.caller activeSession.receiver
         (finalDurationOf (some 7) activeSession 5200)
         (resolvedStatusOf activeSession (some 7) 5200) 5200,
       mkCallRecord activeSession.receiver activeSession.caller
         (finalDurationOf (some 7) activeSession 5200)
         (resolvedStatusOf activeSession (some 7) 5200) 5200] ∧
     (handleEnd activeState { id := "s9", userId := some "u9" }
        "call_u1_u2_100" (some 7) 5200 false false).emits =
      [Emit.callEnded activeSession.callerSocketId "call_u1_u2_100"
         (finalDurationOf (some 7) activeSession 5200)
         (wasAcceptedOf activeSession) (some "u9"),
       Emit.callEnded activeSession.receiverSocketId "call_u1_u2_100"
         (finalDurationOf (some 7) activeSession 5200)
         (wasAcceptedOf activeSession) (some "u9")]) :=
  ⟨⟨by decide, by decide, by decide⟩,
   c9_end_has_no_participant_check activeState
     { id := "s9", userId := some "u9" } "call_u1_u2_100" (some 7) 5200
     activeSession "u9" (by decide) (by decide) (by decide)⟩

/-- Claim C10: the decline handler never reads the session's status, so a
decline on a session already in status `'active'` still clears any timeout,
emits declined to the caller's recorded connection, removes the session, and
writes no history record and no ended event — the declined teardown is
reachable from the active state. -/
theorem c10_decline_reachable_from_active (st : ServerState)
    (callId : String) (reason : Option String) (call : CallSession)
    (h : mapGet st.activeCalls callId = some call)
    (hactive : call.status = "active")
    (hkeys : (st.activeCalls.map Prod.fst).Nodup)
    (hto : st.callTimeouts.Nodup) :
    (handleDecline st callId reason).state.callTimeouts.contains callId
        = false ∧
    (handleDecline st callId reason).emits =
      [Emit.callDeclined call.callerSocketId callId (declineReason reason)] ∧
    mapGet (handleDecline st callId reason).state.activeCalls callId
        = none ∧
    (handleDecline st callId reason).records = [] := by
  refine ⟨?_, ?_, ?_, ?_⟩
  · simp only [handleDecline, h]
    exact timeoutClear_contains_eq_false _ _ hto
  · simp only [handleDecline, h]
  · simp only [handleDecline, h]
    exact mapGet_mapDelete_self _ _ hkeys
  · simp only [handleDecline, h]

/-- Witness for C10: declining the concrete already-accepted (active) call. -/
theorem c10_decline_reachable_from_active_witness :
    (mapGet activeState.activeCalls "call_u1_u2_100" = some activeSession ∧
     activeSession.status = "active" ∧
     (activeState.activeCalls.map Prod.fst).Nodup ∧
     activeState.callTimeouts.Nodup) ∧
    ((handleDecline activeState "call_u1_u2_100"
        none).state.callTimeouts.contains "call_u1_u2_100" = false ∧
     (handleDecline activeState "call_u1_u2_100" none).emits =
      [Emit.callDeclined activeSession.callerSocketId "call_u1_u2_100"
        (declineReason none)] ∧
     mapGet (handleDecline activeState "call_u1_u2_100"
        none).state.activeCalls "call_u1_u2_100" = none ∧
     (handleDecline activeState "call_u1_u2_100" none).records = []) :=
  ⟨⟨by decide, by decide, by decide, by decide⟩,
   c10_decline_reachable_from_active activeState "call_u1_u2_100" none
     activeSession (by decide) (by decide) (by decide) (by decide)⟩

end NellyCall
